import Mathlib

/-!
Verification development for the GoodBoy.AI routing / synthesis / bookkeeping
core.  Python strings are modelled as lists of characters, Python floats as
exact rationals, dictionaries as association lists, and fallible calls to the
generation backend as an oracle returning an `Option`.
-/

/-- Python strings, modelled as lists of characters. -/
abbrev PyStr := List Char

/-- Embed a Lean string literal as a `PyStr`. -/
def pystr (s : String) : PyStr := s.toList

/-- The apostrophe character, U+0027. -/
def apos : Char := Char.ofNat 39

/-- Python `str.lower()` (inputs in this code base are ASCII). -/
def pyLower (s : PyStr) : PyStr := s.map Char.toLower

/-- Python `str.split()`: split on whitespace, dropping empty fragments. -/
def pySplit (s : PyStr) : List PyStr :=
  (s.splitOnP Char.isWhitespace).filter (fun w => !w.isEmpty)

/-- Python `needle in hay` on strings: substring containment. -/
def pyIn (needle hay : PyStr) : Bool :=
  (List.range (hay.length + 1)).any (fun i => needle.isPrefixOf (hay.drop i))

/-- Python `str.strip()`. -/
def pyStrip (s : PyStr) : PyStr :=
  ((s.dropWhile Char.isWhitespace).reverse.dropWhile Char.isWhitespace).reverse

/-- Python `"sep".join(parts)`. -/
def pyJoin (sep : PyStr) (parts : List PyStr) : PyStr :=
  (parts.intersperse sep).flatten

/-! ### Evolution system (`app/memory_evolution.py`) -/

/-- The persistent evolution record (`evolution.json`).  The agent proficiency
dictionary is an association list of persona name to proficiency value. -/
structure EvolutionState where
  generation : Nat
  total_interactions : Nat
  successful_resolutions : Nat
  agent_proficiency : List (PyStr × ℚ)
deriving DecidableEq, Repr

/-- `EvolutionSystem._load_evolution_state`: the freshly initialised state used
when no `evolution.json` exists yet. -/
def initialEvolutionState : EvolutionState where
  generation := 0
  total_interactions := 0
  successful_resolutions := 0
  agent_proficiency :=
    [ (pystr "Batman", 1), (pystr "Alfred", 1), (pystr "Jarvis Core", 1),
      (pystr "DaVinci", 1), (pystr "Architect", 1), (pystr "Analyst", 1) ]

/-- One step of the proficiency loop body in `record_interaction`:
`if agent in self.evolution_state["agent_proficiency"]:
    self.evolution_state["agent_proficiency"][agent] += 0.1`. -/
def bumpProficiency (prof : List (PyStr × ℚ)) (agent : PyStr) : List (PyStr × ℚ) :=
  if prof.any (fun p => p.1 == agent) then
    prof.map (fun p => if p.1 = agent then (p.1, p.2 + 1/10) else p)
  else prof

/-- `EvolutionSystem.record_interaction` (the in-memory state update; the
unconditional save to disk is outside the model). -/
def record_interaction (st : EvolutionState) (message response : PyStr)
    (agents_used : List PyStr) (success : Bool) : EvolutionState :=
  let st := { st with total_interactions := st.total_interactions + 1 }
  if success then
    { st with
      successful_resolutions := st.successful_resolutions + 1,
      agent_proficiency := agents_used.foldl bumpProficiency st.agent_proficiency }
  else st

/-- One `record_interaction` call, packaged for reasoning about call
sequences. -/
structure RecordCall where
  message : PyStr
  response : PyStr
  agents_used : List PyStr
  success : Bool
deriving DecidableEq, Repr

/-- Run a sequence of `record_interaction` calls. -/
def applyRecords (st : EvolutionState) (calls : List RecordCall) : EvolutionState :=
  calls.foldl
    (fun s c => record_interaction s c.message c.response c.agents_used c.success) st

/-! ### Council router (`app/council.py`) -/

/-- The names of the six council agents, in the order of
`CouncilRouter.__init__` (from `app/agents/batman.py`, `alfred.py`,
`jarvis.py`, `davinci.py`, `architect.py`, `analyst.py`). -/
def councilAgentNames : List PyStr :=
  [ pystr "Batman", pystr "Alfred", pystr "Jarvis",
    pystr "DaVinci", pystr "Architect", pystr "Analyst" ]

/-- The outcome of a routing decision (`routing` dict in `council.py`). -/
structure Routing where
  mode : PyStr
  agents : List PyStr
  rationale : PyStr
deriving DecidableEq, Repr

/-- Keyword list of the `"code"` signal in `CouncilRouter._route_auto`. -/
def codeWords : List PyStr :=
  [ pystr "code", pystr "build", pystr "fix", pystr "implement",
    pystr "debug", pystr "function", pystr "class", pystr "error" ]

/-- Keyword list of the `"schedule"` signal in `CouncilRouter._route_auto`. -/
def scheduleWords : List PyStr :=
  [ pystr "schedule", pystr "remind", pystr "meet", pystr "calendar",
    pystr "appointment", pystr "time" ]

/-- Keyword list of the `"creative"` signal in `CouncilRouter._route_auto`. -/
def creativeWords : List PyStr :=
  [ pystr "creative", pystr "design", pystr "idea", pystr "brainstorm",
    pystr "imagine", pystr "concept" ]

/-- Keyword list of the `"security"` signal in `CouncilRouter._route_auto`. -/
def securityWords : List PyStr :=
  [ pystr "security", pystr "threat", pystr "protect", pystr "safe",
    pystr "password", pystr "permission" ]

/-- Keyword list of the `"data"` signal in `CouncilRouter._route_auto`. -/
def dataWords : List PyStr :=
  [ pystr "data", pystr "analyze", pystr "report", pystr "metrics",
    pystr "stats", pystr "numbers" ]

/-- Keyword list of the `"email"` signal in `CouncilRouter._route_auto`. -/
def emailWords : List PyStr :=
  [ pystr "email", pystr "send", pystr "message", pystr "write", pystr "draft" ]

/-- `any(w in msg_lower for w in words)`. -/
def signalHit (words : List PyStr) (msg_lower : PyStr) : Bool :=
  words.any (fun w => pyIn w msg_lower)

/-- `CouncilRouter._route_auto`: first matching signal category in the fixed
`if`/`elif` order picks its two-agent subset. -/
def route_auto (message : PyStr) : Routing :=
  let msg_lower := pyLower message
  if signalHit codeWords msg_lower then
    { mode := pystr "auto", agents := [pystr "Architect", pystr "Analyst"],
      rationale := pystr "Code/building detected -> Architect + Analyst" }
  else if signalHit scheduleWords msg_lower || signalHit emailWords msg_lower then
    { mode := pystr "auto", agents := [pystr "Alfred", pystr "Jarvis"],
      rationale := pystr "Scheduling/communication -> Alfred + Jarvis" }
  else if signalHit creativeWords msg_lower then
    { mode := pystr "auto", agents := [pystr "DaVinci", pystr "Architect"],
      rationale := pystr "Creative request -> DaVinci + Architect" }
  else if signalHit securityWords msg_lower then
    { mode := pystr "auto", agents := [pystr "Batman", pystr "Analyst"],
      rationale := pystr "Security concern -> Batman + Analyst" }
  else if signalHit dataWords msg_lower then
    { mode := pystr "auto", agents := [pystr "Analyst", pystr "Jarvis"],
      rationale := pystr "Data analysis -> Analyst + Jarvis" }
  else
    { mode := pystr "auto", agents := [pystr "Jarvis", pystr "Analyst"],
      rationale := pystr "General query -> Jarvis (core) + Analyst" }

/-- `CouncilRouter._route_reflex`. -/
def route_reflex (message : PyStr) : Routing :=
  { mode := pystr "reflex", agents := [pystr "Jarvis"],
    rationale := pystr "Fast reflex mode" }

/-- `CouncilRouter._route_council`: the names of all agents of the council. -/
def route_council (message : PyStr) : Routing :=
  { mode := pystr "council", agents := councilAgentNames,
    rationale := pystr "Full council deliberation" }

/-- `CouncilRouter._route_strategic`. -/
def route_strategic (message : PyStr) : Routing :=
  { mode := pystr "strategic",
    agents := [pystr "Batman", pystr "Architect", pystr "Analyst"],
    rationale := pystr "Strategic analysis" }

/-- Python truthiness of the optional `routing_hint` argument: `None` and the
empty list are falsy. -/
def hintTruthy : Option (List PyStr) → Bool
  | none => false
  | some l => !l.isEmpty

/-- The routing dispatch of `CouncilRouter.process` (lines 54-67): a truthy
hint together with mode `"auto"` bypasses `_route_auto` entirely. -/
def selectRouting (message : PyStr) (mode : PyStr)
    (routing_hint : Option (List PyStr)) : Routing :=
  if mode = pystr "auto" ∧ hintTruthy routing_hint = true then
    { mode := pystr "auto", agents := routing_hint.getD [],
      rationale := pystr "Optimized routing from learned patterns" }
  else if mode = pystr "auto" then route_auto message
  else if mode = pystr "reflex" then route_reflex message
  else if mode = pystr "council" then route_council message
  else route_strategic message

/-! ### LLM backend (`app/llm.py`) and synthesizer (`app/council.py`) -/

/-- An entry of the `trace` list built in `CouncilRouter.process`: agent name
and proposal text. -/
structure TraceEntry where
  agent : PyStr
  proposal : PyStr
deriving DecidableEq, Repr

/-- The fixed synthesis system prompt `SYNTHESIS_SYSTEM` of `app/council.py`. -/
def SYNTHESIS_SYSTEM : PyStr :=
  pystr "You are the President of GoodBoy.AI City, synthesizing input from your council of specialized agents.\n\nYour council has deliberated and provided their perspectives. Your job is to:\n1. Weigh each agent" ++ [apos] ++
  pystr "s input based on relevance to the user" ++ [apos] ++
  pystr "s request\n2. Combine the best insights into a coherent, actionable response\n3. Speak directly to the user as GoodBoy.AI - helpful, efficient, and loyal\n4. Be concise but thorough - don" ++ [apos] ++
  pystr "t repeat yourself\n\nDo NOT mention the agents by name in your final response. Synthesize their input into a unified voice."

/-- The prompt assembly of `generate_with_system` in `app/llm.py`: system
prompt, optional context block, then the `User: ...\nAssistant:` cue. -/
def fullPrompt (system_prompt user_message : PyStr) (context : Option PyStr) : PyStr :=
  let ctxPart : List PyStr :=
    match context with
    | some c => if c.isEmpty then [] else [pystr "\n\nContext:\n" ++ c]
    | none => []
  ([system_prompt] ++ ctxPart ++
    [pystr "\n\nUser: " ++ user_message ++ pystr "\nAssistant:"]).flatten

/-- `generate_with_system`, with the generation backend abstracted as an
oracle `gen`; `none` models the call raising an exception. -/
def generate_with_system (gen : PyStr → Option PyStr)
    (system_prompt user_message : PyStr) (context : Option PyStr) : Option PyStr :=
  gen (fullPrompt system_prompt user_message context)

/-- The fixed apology string returned by `_synthesize_with_llm` for an empty
trace. -/
def apologyText : PyStr :=
  pystr "I couldn" ++ [apos] ++ pystr "t process that request. Could you rephrase it?"

/-- The fixed user message of the synthesis call. -/
def synthesisUserMessage : PyStr :=
  pystr "Synthesize the agent inputs into a helpful response for the user."

/-- The `context` string built by `_synthesize_with_llm` from the user request,
the labelled agent proposals, and the optional lesson block. -/
def synthesisContext (message : PyStr) (trace : List TraceEntry)
    (lesson_context : PyStr) : PyStr :=
  let agent_inputs :=
    pyJoin (pystr "\n\n")
      (trace.map (fun t => pystr "**" ++ t.agent ++ pystr "**: " ++ t.proposal))
  let context_parts :=
    [pystr "User Request: " ++ message, pystr "Agent Inputs:\n" ++ agent_inputs] ++
      (if lesson_context.isEmpty then [] else
        [pystr "Relevant Learnings:\n" ++ lesson_context])
  pyJoin (pystr "\n\n") context_parts

/-- The full prompt the synthesis step hands to the generation backend. -/
def synthesisPrompt (message : PyStr) (trace : List TraceEntry)
    (lesson_context : PyStr) : PyStr :=
  fullPrompt SYNTHESIS_SYSTEM synthesisUserMessage
    (some (synthesisContext message trace lesson_context))

/-- The deterministic fallback text of `_synthesize_with_llm`: a fixed lead-in
followed by the first 200 characters of each proposal. -/
def councilFallbackText (trace : List TraceEntry) : PyStr :=
  pystr "Based on council analysis:\n\n" ++
    pyJoin (pystr "\n") (trace.map (fun t => pystr "- " ++ t.proposal.take 200))

/-- `CouncilRouter._synthesize_with_llm`, with the generation backend
abstracted as the oracle `gen` (`none` = the backend call raises). -/
def synthesize_with_llm (gen : PyStr → Option PyStr) (message : PyStr)
    (trace : List TraceEntry) (lesson_context : PyStr) : PyStr :=
  if trace.isEmpty then apologyText
  else
    match generate_with_system gen SYNTHESIS_SYSTEM synthesisUserMessage
        (some (synthesisContext message trace lesson_context)) with
    | some synthesized => synthesized
    | none => councilFallbackText trace

/-! ### Teachings store (`app/teachings.py`) -/

/-- A stored lesson (`Lesson` dataclass). -/
structure Lesson where
  id : PyStr
  topic : PyStr
  instruction : PyStr
  tags : List PyStr
  created_at : PyStr
  usage_count : Nat
  effectiveness_score : ℚ
  source : PyStr
deriving DecidableEq, Repr

/-- The size of the intersection of the query word set with the instruction
word set (`len(query_words & instruction_words)`). -/
def tokenOverlap (query_words : List PyStr) (instruction : PyStr) : ℚ :=
  (((pySplit (pyLower instruction)).dedup).filter
    (fun w => decide (w ∈ query_words))).length

/-- The relevance score one lesson receives in
`TeachingsStore.get_relevant_lessons`: topic substring bonus, +2 per tag found
among the query words, token overlap, all boosted by effectiveness. -/
def lessonScore (query : PyStr) (lesson : Lesson) : ℚ :=
  let query_lower := pyLower query
  let query_words := (pySplit query_lower).dedup
  (lesson.tags.foldl
      (fun s tag => if pyLower tag ∈ query_words then s + 2 else s)
      (if pyIn query_lower (pyLower lesson.topic) then (3 : ℚ) else 0)
    + tokenOverlap query_words lesson.instruction)
  * (1/2 + lesson.effectiveness_score)

/-- Priority order of the stable descending sort of scored lessons. -/
def scoreGE (a b : ℚ × Lesson) : Prop := b.1 ≤ a.1

instance : DecidableRel scoreGE := fun a b => inferInstanceAs (Decidable (b.1 ≤ a.1))

/-- `TeachingsStore.get_relevant_lessons`: score every lesson, keep strictly
positive scores, sort stably by descending score, return the first `k`. -/
def get_relevant_lessons (lessons : List Lesson) (query : PyStr) (k : Nat) :
    List Lesson :=
  let scored :=
    (lessons.map (fun l => (lessonScore query l, l))).filter
      (fun p => decide (0 < p.1))
  (((scored.insertionSort scoreGE).map Prod.snd).take k)

/-- The score formula exactly as the specification words it: "((3 if the query
is a substring of the topic) + (2 per tag appearing among the query's words) +
(count of instruction/query token overlap)) multiplied by
(0.5 + effectiveness_score)". -/
def lessonScoreSpec (query : PyStr) (lesson : Lesson) : ℚ :=
  let qw := (pySplit (pyLower query)).dedup
  ((if pyIn (pyLower query) (pyLower lesson.topic) then (3 : ℚ) else 0)
      + 2 * (lesson.tags.countP (fun t => decide (pyLower t ∈ qw)))
      + tokenOverlap qw lesson.instruction)
    * (1/2 + lesson.effectiveness_score)

/-- Lesson retrieval exactly as the specification words it: score as in
`lessonScoreSpec`, exclude zero-score lessons, descending score order with
ties broken by original insertion order (a stable sort), at most `k`. -/
def relevantLessonsSpec (lessons : List Lesson) (query : PyStr) (k : Nat) :
    List Lesson :=
  let scored :=
    (lessons.map (fun l => (lessonScoreSpec query l, l))).filter
      (fun p => decide (p.1 ≠ 0))
  (((scored.insertionSort scoreGE).map Prod.snd).take k)

/-- The record update applied to the first matching lesson in
`TeachingsStore.mark_lesson_used`. -/
def markUpdate (lesson : Lesson) (was_helpful : Bool) : Lesson :=
  { lesson with
    usage_count := lesson.usage_count + 1,
    effectiveness_score :=
      max 0 (min 1 (lesson.effectiveness_score +
        (if was_helpful then 1/10 else -(1/10)))) }

/-- `TeachingsStore.mark_lesson_used`: walk the lesson list, update the first
lesson with the given id (then `break`); silently do nothing when no lesson
matches. -/
def mark_lesson_used (lessons : List Lesson) (lesson_id : PyStr)
    (was_helpful : Bool) : List Lesson :=
  match lessons with
  | [] => []
  | l :: rest =>
    if l.id = lesson_id then markUpdate l was_helpful :: rest
    else l :: mark_lesson_used rest lesson_id was_helpful

/-- Run a sequence of `mark_lesson_used` calls (id, was_helpful). -/
def applyMarks (lessons : List Lesson) (calls : List (PyStr × Bool)) : List Lesson :=
  calls.foldl (fun ls c => mark_lesson_used ls c.1 c.2) lessons

/-! ### Conversation memory (`app/memory.py`) -/

/-- One stored conversation record: timestamp (abstracted to a number) and the
two optional text fields. -/
structure MemEntry where
  timestamp : Nat
  user : Option PyStr
  assistant : Option PyStr
deriving DecidableEq, Repr

/-- `MemoryManager.add_message`: append one record. -/
def add_message (messages : List MemEntry) (entry : MemEntry) : List MemEntry :=
  messages ++ [entry]

/-- Python's `l[-k:]` slice for `k ≥ 0`: the last `k` elements, except that
`k = 0` yields the whole list. -/
def pyLastSlice (l : List MemEntry) (k : Nat) : List MemEntry :=
  if k = 0 then l else l.drop (l.length - k)

/-- `MemoryManager.get_context`: the recency window, the total record count,
and the timestamp of the last record. -/
def get_context (messages : List MemEntry) (k : Nat) :
    List MemEntry × Nat × Option Nat :=
  let recent := if messages.length > k then pyLastSlice messages k else messages
  (recent, messages.length, (messages.getLast?).map (fun m => m.timestamp))

/-- Write a sequence of turns with `add_message`. -/
def writeTurns (messages : List MemEntry) (turns : List MemEntry) : List MemEntry :=
  turns.foldl add_message messages

/-! ### Brain confidence heuristic (`app/brain.py`) -/

/-- The error-marker test of `UnifiedBrain._estimate_response_quality`:
`"[Error]" in response or "[LLM Error]" in response`. -/
def hasErrorMarker (response : PyStr) : Bool :=
  pyIn (pystr "[Error]") response || pyIn (pystr "[LLM Error]") response

/-- The "actionable phrase" list of `_estimate_response_quality`. -/
def actionablePhrases : List PyStr :=
  [ pystr "here" ++ [apos] ++ pystr "s", pystr "here is",
    pystr "you can", pystr "to do this" ]

/-- `any(w in response.lower() for w in [...])`. -/
def hasActionablePhrase (response : PyStr) : Bool :=
  actionablePhrases.any (fun w => pyIn w (pyLower response))

/-- `UnifiedBrain._estimate_response_quality`.  Note that the query argument
is never consulted: the length bump is the absolute test
`len(response.split()) > 20`. -/
def estimate_response_quality (query response : PyStr) : ℚ :=
  let confidence : ℚ := 7/10
  let confidence := if hasErrorMarker response then confidence - 4/10 else confidence
  let response_words := (pySplit response).length
  let confidence :=
    if response_words < 5 then confidence - 2/10
    else if response_words > 20 then confidence + 1/10
    else confidence
  let confidence :=
    if hasActionablePhrase response then confidence + 1/10 else confidence
  max (1/10) (min 1 confidence)

/-- Confidence scoring exactly as the specification words it, reading "the
reply is long relative to the query" as the reply having more words than the
query: start at 0.7, -0.4 on an error marker, -0.2 under 5 words, +0.1 when
longer than the query, +0.1 on an actionable phrase, clamped to [0.1, 1.0]. -/
def estimateQualitySpec (query response : PyStr) : ℚ :=
  let base : ℚ :=
    7/10
    + (if hasErrorMarker response then -(4/10) else 0)
    + (if (pySplit response).length < 5 then -(2/10) else 0)
    + (if (pySplit response).length > (pySplit query).length then 1/10 else 0)
    + (if hasActionablePhrase response then 1/10 else 0)
  max (1/10) (min 1 base)

/-- The Score-and-Record fragment of `UnifiedBrain.think` (lines 444 and
469-478): the confidence estimate feeds the evolution ledger with
`success = (confidence > 0.6)`. -/
def think_record (query response : PyStr) (agents_used : List PyStr)
    (evo : EvolutionState) : EvolutionState :=
  record_interaction evo query response agents_used
    (decide (estimate_response_quality query response > 3/5))

/-! ### Chat endpoint (`app/main.py`, `/chat`) -/

/-- The fields of a `ChainOfThought` that the endpoint copies into the
response (`brain.py`); thoughts are (source, content, confidence) triples. -/
structure ChainData where
  agents_consulted : List PyStr
  confidence : ℚ
  emotional_tone : PyStr
  reasoning_time_ms : Nat
  thoughts : List (PyStr × PyStr × ℚ)
deriving DecidableEq, Repr

/-- The `ChatResponse` payload assembled at the end of the `/chat` handler
(route metadata fields flattened). -/
structure ChatResponse where
  output : PyStr
  agent_trace : List (PyStr × PyStr × ℚ)
  route_mode : PyStr
  route_agents : List PyStr
  route_confidence : ℚ
  route_emotional_tone : PyStr
  route_reasoning_time_ms : Nat
deriving DecidableEq, Repr

/-- Python `request.mode or "auto"`: `None` and the empty string fall back to
`"auto"`. -/
def pyModeOrAuto (mode : Option PyStr) : PyStr :=
  match mode with
  | some m => if m.isEmpty then pystr "auto" else m
  | none => pystr "auto"

/-- The response text of the `/chat` handler: the brain's reply, or on a brain
exception the output of the direct council fallback (which is handed
`request.mode or "auto"`). -/
def chatResponseText (mode : Option PyStr) (brainOutcome : Option (PyStr × ChainData))
    (councilFallback : PyStr → PyStr) : PyStr :=
  match brainOutcome with
  | some (text, _) => text
  | none => councilFallback (pyModeOrAuto mode)

/-- The `/chat` handler of `app/main.py` (lines 171-227), with the brain
abstracted as an outcome (`none` = `brain.think` raised) and the council
fallback as a function of the requested mode.  Note the route metadata is
built with the literal `"mode": "brain"`. -/
def chat (message : PyStr) (mode : Option PyStr)
    (brainOutcome : Option (PyStr × ChainData))
    (councilFallback : PyStr → PyStr) : Except Nat ChatResponse :=
  if (pyStrip message).isEmpty then Except.error 400
  else
    let chain : Option ChainData := brainOutcome.map (fun p => p.2)
    Except.ok
      { output := chatResponseText mode brainOutcome councilFallback
        agent_trace := (match chain with | some c => c.thoughts | none => [])
        route_mode := pystr "brain"
        route_agents := match chain with | some c => c.agents_consulted | none => []
        route_confidence := match chain with | some c => c.confidence | none => 1/2
        route_emotional_tone :=
          match chain with | some c => c.emotional_tone | none => pystr "neutral"
        route_reasoning_time_ms :=
          match chain with | some c => c.reasoning_time_ms | none => 0 }

/-! ### Concrete inputs used in counterexamples and witnesses -/

/-- The routing scenario message from the specification. -/
def scheduleScenarioMsg : PyStr :=
  pystr "Can you schedule a meeting and also write the invite email?"

/-- A 30-word query (word count is all that matters to the heuristic). -/
def longQuery : PyStr :=
  pystr "a a a a a a a a a a a a a a a a a a a a a a a a a a a a a a"

/-- A 21-word reply with no error marker and no actionable phrase. -/
def midResponse : PyStr :=
  pystr "b b b b b b b b b b b b b b b b b b b b b"

/-- A concrete chain-of-thought record for the chat counterexample. -/
def chainSample : ChainData :=
  { agents_consulted := [pystr "Jarvis"], confidence := 7/10,
    emotional_tone := pystr "neutral", reasoning_time_ms := 3,
    thoughts := [(pystr "Analysis", pystr "Query type: general", 85/100)] }

/-- A concrete brain reply for the chat counterexample. -/
def brainReplySample : PyStr :=
  pystr "Certainly, your meeting is scheduled for tomorrow morning."

/-- A concrete lesson used in witnesses. -/
def lessonSample : Lesson :=
  { id := pystr "lesson_0_20240101000000", topic := pystr "deploys",
    instruction := pystr "always run tests first", tags := [pystr "ci"],
    created_at := pystr "2024-01-01", usage_count := 0,
    effectiveness_score := 1/2, source := pystr "user" }

/-- Oracle that models the generation backend succeeding with an empty reply. -/
def emptyReplyOracle : PyStr → Option PyStr := fun _ => some []

/-- Oracle that models the generation backend raising on every call. -/
def failingOracle : PyStr → Option PyStr := fun _ => none

/-- A one-entry proposal trace used in counterexamples and witnesses. -/
def traceSample : List TraceEntry := [⟨pystr "Jarvis", pystr "hello"⟩]

/-- A constant council fallback used in the chat counterexample. -/
def constFallback : PyStr → PyStr := fun _ => brainReplySample

/-! ### Helper lemmas about the evolution proficiency table -/

theorem mem_bump_le {c : ℚ} {prof : List (PyStr × ℚ)} {agent : PyStr}
    (h : ∀ p ∈ prof, c ≤ p.2) : ∀ p ∈ bumpProficiency prof agent, c ≤ p.2 := by
  unfold bumpProficiency
  split
  · intro p hp
    obtain ⟨q, hq, rfl⟩ := List.mem_map.mp hp
    by_cases hqa : q.1 = agent
    · have := h q hq
      simp only [hqa, if_pos]
      linarith
    · simp only [hqa, if_neg, ite_false]
      exact h q hq
  · exact h

theorem mem_foldl_bump_le {c : ℚ} (used : List PyStr) :
    ∀ prof : List (PyStr × ℚ), (∀ p ∈ prof, c ≤ p.2) →
      ∀ p ∈ used.foldl bumpProficiency prof, c ≤ p.2 := by
  induction used with
  | nil => intro prof h; simpa using h
  | cons b rest ih =>
    intro prof h
    simp only [List.foldl_cons]
    exact ih _ (mem_bump_le h)

theorem record_mem_le {c : ℚ} (evo : EvolutionState) (m r : PyStr)
    (used : List PyStr) (success : Bool)
    (h : ∀ p ∈ evo.agent_proficiency, c ≤ p.2) :
    ∀ p ∈ (record_interaction evo m r used success).agent_proficiency, c ≤ p.2 := by
  unfold record_interaction
  cases success
  · simpa using h
  · simpa using mem_foldl_bump_le used _ h

theorem applyRecords_mem_le {c : ℚ} (calls : List RecordCall) :
    ∀ evo : EvolutionState, (∀ p ∈ evo.agent_proficiency, c ≤ p.2) →
      ∀ p ∈ (applyRecords evo calls).agent_proficiency, c ≤ p.2 := by
  induction calls with
  | nil => intro evo h; simpa [applyRecords] using h
  | cons cl rest ih =>
    intro evo h
    simp only [applyRecords, List.foldl_cons]
    exact ih _ (record_mem_le evo cl.message cl.response cl.agents_used cl.success h)

theorem lookup_map_bump_ne (prof : List (PyStr × ℚ)) (agent k : PyStr)
    (hk : k ≠ agent) :
    List.lookup k (prof.map (fun p => if p.1 = agent then (p.1, p.2 + 1/10) else p))
      = List.lookup k prof := by
  induction prof with
  | nil => rfl
  | cons p rest ih =>
    obtain ⟨pk, pv⟩ := p
    by_cases hpa : pk = agent
    · have hkp : (k == pk) = false := by
        rw [beq_eq_false_iff_ne]
        intro hh
        exact hk (hpa ▸ hh)
      simp only [List.map_cons, if_pos hpa, List.lookup_cons, hkp, ih]
    · simp only [List.map_cons, if_neg hpa]
      cases hkp : k == pk <;>
        simp only [List.lookup_cons, hkp, ih]

theorem lookup_bump_ne (prof : List (PyStr × ℚ)) (agent k : PyStr)
    (hk : k ≠ agent) :
    List.lookup k (bumpProficiency prof agent) = List.lookup k prof := by
  unfold bumpProficiency
  split
  · exact lookup_map_bump_ne prof agent k hk
  · rfl

theorem any_of_lookup (prof : List (PyStr × ℚ)) (a : PyStr) (v : ℚ)
    (h : List.lookup a prof = some v) :
    prof.any (fun p => p.1 == a) = true := by
  induction prof with
  | nil => simp [List.lookup] at h
  | cons p rest ih =>
    obtain ⟨pk, pv⟩ := p
    rw [List.any_cons]
    cases hpa : a == pk with
    | true =>
      have : (pk == a) = true := by
        rw [beq_iff_eq] at hpa ⊢
        exact hpa.symm
      simp [this]
    | false =>
      rw [List.lookup_cons, hpa] at h
      simp [ih h]

theorem lookup_map_bump_eq (prof : List (PyStr × ℚ)) (a : PyStr) (v : ℚ)
    (h : List.lookup a prof = some v) :
    List.lookup a (prof.map (fun p => if p.1 = a then (p.1, p.2 + 1/10) else p))
      = some (v + 1/10) := by
  induction prof with
  | nil => simp [List.lookup] at h
  | cons p rest ih =>
    obtain ⟨pk, pv⟩ := p
    cases hpa : a == pk with
    | true =>
      have heq : a = pk := by rwa [beq_iff_eq] at hpa
      rw [List.lookup_cons, hpa] at h
      have hv : pv = v := by injection h
      subst hv heq
      simp [List.map_cons, List.lookup_cons_self]
    | false =>
      have hne : pk ≠ a := by
        intro hh
        rw [hh] at hpa
        simp at hpa
      rw [List.lookup_cons, hpa] at h
      simp only [List.map_cons, if_neg hne, List.lookup_cons, hpa, ih h]

theorem lookup_bump_eq (prof : List (PyStr × ℚ)) (a : PyStr) (v : ℚ)
    (h : List.lookup a prof = some v) :
    List.lookup a (bumpProficiency prof a) = some (v + 1/10) := by
  unfold bumpProficiency
  rw [if_pos (any_of_lookup prof a v h)]
  exact lookup_map_bump_eq prof a v h

theorem lookup_foldl_bump (used : List PyStr) :
    ∀ (prof : List (PyStr × ℚ)) (a : PyStr) (v : ℚ),
      List.lookup a prof = some v →
      List.lookup a (used.foldl bumpProficiency prof)
        = some (v + (used.count a : ℚ) * (1/10)) := by
  induction used with
  | nil =>
    intro prof a v h
    simpa using h
  | cons b rest ih =>
    intro prof a v h
    simp only [List.foldl_cons]
    by_cases hba : b = a
    · subst hba
      rw [ih _ _ _ (lookup_bump_eq prof b v h)]
      congr 1
      rw [List.count_cons]
      simp only [beq_self_eq_true, if_pos]
      push_cast
      ring
    · rw [ih _ _ _ ((lookup_bump_ne prof b a (fun hh => hba hh.symm)) ▸ h)]
      congr 2
      rw [List.count_cons]
      have : (b == a) = false := by rwa [beq_eq_false_iff_ne]
      simp [this]

theorem lookup_foldl_bump_ne (used : List PyStr) :
    ∀ (prof : List (PyStr × ℚ)) (a : PyStr), a ∉ used →
      List.lookup a (used.foldl bumpProficiency prof) = List.lookup a prof := by
  induction used with
  | nil => intro prof a _; rfl
  | cons b rest ih =>
    intro prof a ha
    simp only [List.foldl_cons]
    rw [ih _ _ (fun hm => ha (List.mem_cons_of_mem b hm))]
    exact lookup_bump_ne prof b a (fun hh => ha (hh ▸ List.mem_cons_self b rest))

/-- Claim C1, counterexample: from the initial evolution state, one successful
`record_interaction` with `agents_used = ["Batman"]` leaves Batman at 1.1 —
above the claimed 1.0 cap, and not the claimed +0.05 bump (which would give
1.05, clamped to 1.0). -/
theorem c1_record_interaction_cex :
    List.lookup (pystr "Batman")
        (record_interaction initialEvolutionState [] [] [pystr "Batman"]
          true).agent_proficiency
      = some (11/10)
    ∧ ¬ ((11/10 : ℚ) ≤ 1) ∧ (11/10 : ℚ) ≠ 1 + 1/20 ∧ (11/10 : ℚ) ≠ 1 := by
  have h0 : List.lookup (pystr "Batman") initialEvolutionState.agent_proficiency
      = some 1 := by decide
  have hcnt : ([pystr "Batman"].count (pystr "Batman")) = 1 := by decide
  have h2 : List.lookup (pystr "Batman")
      (record_interaction initialEvolutionState [] [] [pystr "Batman"]
        true).agent_proficiency
      = some (1 + (([pystr "Batman"].count (pystr "Batman")) : ℚ) * (1/10)) := by
    unfold record_interaction
    rw [if_pos rfl]
    exact lookup_foldl_bump _ _ _ _ h0
  rw [hcnt] at h2
  refine ⟨?_, by norm_num, by norm_num, by norm_num⟩
  rw [h2]
  norm_num

/-- Claim C1 (amended): starting from the initial evolution state, every
per-agent proficiency value stays at or above 1.0 (in particular within
[0.1, ∞)) after any sequence of `record_interaction` calls, and each
successful call adds exactly +0.1 per occurrence of the persona in
`agents_used`, with no upper clamp. -/
theorem c1_record_interaction_amended :
    (∀ calls : List RecordCall,
       ∀ p ∈ (applyRecords initialEvolutionState calls).agent_proficiency,
         (1 : ℚ) ≤ p.2 ∧ (1/10 : ℚ) ≤ p.2) ∧
    (∀ (evo : EvolutionState) (m r : PyStr) (used : List PyStr) (a : PyStr) (v : ℚ),
       List.lookup a evo.agent_proficiency = some v →
       List.lookup a (record_interaction evo m r used true).agent_proficiency
         = some (v + (used.count a : ℚ) * (1/10))) := by
  constructor
  · intro calls p hp
    have h1 : ∀ p ∈ initialEvolutionState.agent_proficiency, (1 : ℚ) ≤ p.2 := by decide
    have h2 := applyRecords_mem_le calls initialEvolutionState h1 p hp
    exact ⟨h2, le_trans (by norm_num) h2⟩
  · intro evo m r used a v h
    unfold record_interaction
    rw [if_pos rfl]
    exact lookup_foldl_bump used _ a v h

/-- Witness for C1 (amended) at a concrete call sequence. -/
theorem c1_record_interaction_amended_witness :
    ((1 : ℚ) ≤ (pystr "Batman", (1 : ℚ)).2 ∧ (1/10 : ℚ) ≤ (pystr "Batman", (1 : ℚ)).2) ∧
    List.lookup (pystr "Alfred")
        (record_interaction initialEvolutionState [] [] [pystr "Alfred"]
          true).agent_proficiency
      = some (1 + (([pystr "Alfred"].count (pystr "Alfred") : ℚ)) * (1/10)) :=
  ⟨c1_record_interaction_amended.1 [] (pystr "Batman", 1) (by decide),
   c1_record_interaction_amended.2 initialEvolutionState [] [] [pystr "Alfred"]
      (pystr "Alfred") 1 (by decide)⟩

/-- Claim C10: `record_interaction` can only change proficiency entries whose
key occurs in `agents_used`; nothing changes on failure; and since the
council's agent names (in particular `"Jarvis"`) never include the proficiency
key `"Jarvis Core"`, any interaction whose `agents_used` come from the council
leaves the `"Jarvis Core"` entry unchanged. -/
theorem c10_record_interaction_frame :
    (∀ (evo : EvolutionState) (m r : PyStr) (used : List PyStr) (success : Bool)
       (a : PyStr), a ∉ used →
       List.lookup a (record_interaction evo m r used success).agent_proficiency
         = List.lookup a evo.agent_proficiency) ∧
    (∀ (evo : EvolutionState) (m r : PyStr) (used : List PyStr),
       (record_interaction evo m r used false).agent_proficiency
         = evo.agent_proficiency) ∧
    (∀ (evo : EvolutionState) (m r : PyStr) (success : Bool) (used : List PyStr),
       (∀ x ∈ used, x ∈ councilAgentNames) →
       List.lookup (pystr "Jarvis Core")
           (record_interaction evo m r used success).agent_proficiency
         = List.lookup (pystr "Jarvis Core") evo.agent_proficiency) := by
  have frame : ∀ (evo : EvolutionState) (m r : PyStr) (used : List PyStr)
      (success : Bool) (a : PyStr), a ∉ used →
      List.lookup a (record_interaction evo m r used success).agent_proficiency
        = List.lookup a evo.agent_proficiency := by
    intro evo m r used success a ha
    unfold record_interaction
    cases success
    · rfl
    · rw [if_pos rfl]
      exact lookup_foldl_bump_ne used _ a ha
  refine ⟨frame, fun evo m r used => rfl, ?_⟩
  intro evo m r success used hall
  exact frame evo m r used success (pystr "Jarvis Core")
    (fun hmem => absurd (hall _ hmem) (by decide))

/-- Witness for C10 at a concrete interaction: a successful interaction with
`agents_used = ["Jarvis"]` leaves `"Jarvis Core"` untouched. -/
theorem c10_record_interaction_frame_witness :
    List.lookup (pystr "Jarvis Core")
        (record_interaction initialEvolutionState [] [] [pystr "Jarvis"]
          true).agent_proficiency
      = List.lookup (pystr "Jarvis Core") initialEvolutionState.agent_proficiency :=
  c10_record_interaction_frame.2.2 initialEvolutionState [] [] true
    [pystr "Jarvis"] (by decide)

/-- Claim C7: reflex routing always selects exactly the one persona
`"Jarvis"`; council routing selects the full six-agent persona set; strategic
routing selects the same fixed three-persona subset regardless of the message;
and the `process` dispatch sends each mode string to the corresponding
routing function. -/
theorem c7_route_mode_cardinality (m m' : PyStr) (hint : Option (List PyStr)) :
    (route_reflex m).agents.length = 1 ∧
    (route_reflex m).agents = [pystr "Jarvis"] ∧
    (route_council m).agents = councilAgentNames ∧
    councilAgentNames.length = 6 ∧
    (route_strategic m).agents
      = [pystr "Batman", pystr "Architect", pystr "Analyst"] ∧
    route_strategic m = route_strategic m' ∧
    selectRouting m (pystr "reflex") hint = route_reflex m ∧
    selectRouting m (pystr "council") hint = route_council m ∧
    selectRouting m (pystr "strategic") hint = route_strategic m := by
  refine ⟨rfl, rfl, rfl, rfl, rfl, rfl, ?_, ?_, ?_⟩
  · unfold selectRouting
    rw [if_neg (fun h => absurd h.1 (by decide)), if_neg (by decide),
      if_pos rfl]
  · unfold selectRouting
    rw [if_neg (fun h => absurd h.1 (by decide)), if_neg (by decide),
      if_neg (by decide), if_pos rfl]
  · unfold selectRouting
    rw [if_neg (fun h => absurd h.1 (by decide)), if_neg (by decide),
      if_neg (by decide), if_neg (by decide)]

/-- Claim C3: in `auto` mode a truthy routing hint is returned verbatim and
keyword evaluation is skipped; without a hint, the first matching signal in
the fixed `code`, `schedule`/`email`, `creative`, `security`, `data` order
selects its mapped two-persona pair, with `["Jarvis", "Analyst"]` as default;
and the scheduling scenario message deterministically selects
`["Alfred", "Jarvis"]`. -/
theorem c3_route_auto_precedence :
    (∀ (m : PyStr) (h : List PyStr), h ≠ [] →
       selectRouting m (pystr "auto") (some h)
         = { mode := pystr "auto", agents := h,
             rationale := pystr "Optimized routing from learned patterns" }) ∧
    (∀ m : PyStr, selectRouting m (pystr "auto") none = route_auto m) ∧
    (∀ m : PyStr, signalHit codeWords (pyLower m) = true →
       (route_auto m).agents = [pystr "Architect", pystr "Analyst"]) ∧
    (∀ m : PyStr, signalHit codeWords (pyLower m) = false →
       (signalHit scheduleWords (pyLower m) || signalHit emailWords (pyLower m))
         = true →
       (route_auto m).agents = [pystr "Alfred", pystr "Jarvis"]) ∧
    (∀ m : PyStr, signalHit codeWords (pyLower m) = false →
       (signalHit scheduleWords (pyLower m) || signalHit emailWords (pyLower m))
         = false →
       signalHit creativeWords (pyLower m) = true →
       (route_auto m).agents = [pystr "DaVinci", pystr "Architect"]) ∧
    (∀ m : PyStr, signalHit codeWords (pyLower m) = false →
       (signalHit scheduleWords (pyLower m) || signalHit emailWords (pyLower m))
         = false →
       signalHit creativeWords (pyLower m) = false →
       signalHit securityWords (pyLower m) = true →
       (route_auto m).agents = [pystr "Batman", pystr "Analyst"]) ∧
    (∀ m : PyStr, signalHit codeWords (pyLower m) = false →
       (signalHit scheduleWords (pyLower m) || signalHit emailWords (pyLower m))
         = false →
       signalHit creativeWords (pyLower m) = false →
       signalHit securityWords (pyLower m) = false →
       signalHit dataWords (pyLower m) = true →
       (route_auto m).agents = [pystr "Analyst", pystr "Jarvis"]) ∧
    (∀ m : PyStr, signalHit codeWords (pyLower m) = false →
       (signalHit scheduleWords (pyLower m) || signalHit emailWords (pyLower m))
         = false →
       signalHit creativeWords (pyLower m) = false →
       signalHit securityWords (pyLower m) = false →
       signalHit dataWords (pyLower m) = false →
       (route_auto m).agents = [pystr "Jarvis", pystr "Analyst"]) ∧
    (route_auto scheduleScenarioMsg).agents = [pystr "Alfred", pystr "Jarvis"] := by
  refine ⟨?_, ?_, ?_, ?_, ?_, ?_, ?_, ?_, by decide⟩
  · intro m h hne
    have ht : hintTruthy (some h) = true := by
      cases h with
      | nil => exact absurd rfl hne
      | cons a l => rfl
    unfold selectRouting
    rw [if_pos ⟨rfl, ht⟩]
    rfl
  · intro m
    unfold selectRouting
    rw [if_neg (fun hh => by simpa [hintTruthy] using hh.2), if_pos rfl]
  · intro m h1
    simp only [route_auto, h1, if_true]
  · intro m h1 h2
    simp only [route_auto, h1, h2, Bool.false_eq_true, if_false, if_true]
  · intro m h1 h2 h3
    simp only [route_auto, h1, h2, h3, Bool.false_eq_true, if_false, if_true]
  · intro m h1 h2 h3 h4
    simp only [route_auto, h1, h2, h3, h4, Bool.false_eq_true, if_false, if_true]
  · intro m h1 h2 h3 h4 h5
    simp only [route_auto, h1, h2, h3, h4, h5, Bool.false_eq_true, if_false,
      if_true]
  · intro m h1 h2 h3 h4 h5
    simp only [route_auto, h1, h2, h3, h4, h5, Bool.false_eq_true, if_false]

/-- Witness for C3 at concrete inputs: a hint is returned verbatim, and the
scenario message triggers the scheduling pair through the signal branch. -/
theorem c3_route_auto_precedence_witness :
    selectRouting [] (pystr "auto") (some [pystr "Batman"])
      = { mode := pystr "auto", agents := [pystr "Batman"],
          rationale := pystr "Optimized routing from learned patterns" } ∧
    (route_auto scheduleScenarioMsg).agents = [pystr "Alfred", pystr "Jarvis"] :=
  ⟨c3_route_auto_precedence.1 [] [pystr "Batman"] (by decide),
   c3_route_auto_precedence.2.2.2.1 scheduleScenarioMsg (by decide) (by decide)⟩

/-- Claim C4, counterexample: when the generation backend succeeds but
returns the empty string, the synthesizer forwards it verbatim, so the output
is empty even though the proposal list is non-empty and the backend call did
not fail — the claim's unconditional "always returns a non-empty string"
fails. -/
theorem c4_synthesize_cex :
    synthesize_with_llm emptyReplyOracle (pystr "hi") traceSample [] = [] ∧
    traceSample ≠ [] ∧
    emptyReplyOracle (synthesisPrompt (pystr "hi") traceSample []) ≠ none := by
  exact ⟨rfl, by decide, fun h => by simp [emptyReplyOracle] at h⟩

/-- Claim C4 (amended): for an empty proposal list the synthesizer returns the
fixed apology string whatever the backend oracle is (so the backend is never
consulted), on a failing backend call it returns the fixed lead-in followed by
the first 200 characters of each proposal, both fallbacks are non-empty, and
on a successful backend call it returns the backend's text verbatim (hence
non-empty output whenever the backend's reply is non-empty). -/
theorem c4_synthesize_fallbacks :
    (∀ (g₁ g₂ : PyStr → Option PyStr) (m lc : PyStr),
       synthesize_with_llm g₁ m [] lc = apologyText ∧
       synthesize_with_llm g₁ m [] lc = synthesize_with_llm g₂ m [] lc) ∧
    apologyText ≠ [] ∧
    (∀ (gen : PyStr → Option PyStr) (m : PyStr) (tr : List TraceEntry) (lc : PyStr),
       tr ≠ [] → gen (synthesisPrompt m tr lc) = none →
       synthesize_with_llm gen m tr lc = councilFallbackText tr) ∧
    (∀ tr : List TraceEntry, councilFallbackText tr ≠ []) ∧
    (∀ (gen : PyStr → Option PyStr) (m : PyStr) (tr : List TraceEntry) (lc s : PyStr),
       tr ≠ [] → gen (synthesisPrompt m tr lc) = some s →
       synthesize_with_llm gen m tr lc = s) := by
  have hempty : ∀ (tr : List TraceEntry), tr ≠ [] → tr.isEmpty = false := by
    intro tr htr
    cases tr with
    | nil => exact absurd rfl htr
    | cons a l => rfl
  refine ⟨?_, by decide, ?_, ?_, ?_⟩
  · intro g₁ g₂ m lc
    exact ⟨rfl, rfl⟩
  · intro gen m tr lc htr hgen
    simp only [synthesisPrompt] at hgen
    simp only [synthesize_with_llm, hempty tr htr, Bool.false_eq_true,
      if_false, generate_with_system, hgen]
  · intro tr hh
    have h29 : pystr "Based on council analysis:\n\n" ≠ [] := by decide
    unfold councilFallbackText at hh
    exact h29 (List.append_eq_nil.mp hh).1
  · intro gen m tr lc s htr hgen
    simp only [synthesisPrompt] at hgen
    simp only [synthesize_with_llm, hempty tr htr, Bool.false_eq_true,
      if_false, generate_with_system, hgen]

/-- Witness for C4 (amended) at a concrete trace and failing oracle. -/
theorem c4_synthesize_fallbacks_witness :
    synthesize_with_llm failingOracle (pystr "hi") traceSample []
      = councilFallbackText traceSample ∧
    councilFallbackText traceSample ≠ [] :=
  ⟨c4_synthesize_fallbacks.2.2.1 failingOracle (pystr "hi") traceSample []
      (by decide) rfl,
   c4_synthesize_fallbacks.2.2.2.1 traceSample⟩

/-- Claim C2, counterexample: a chat request with the non-empty message
`"hello there"` and requested mode `"council"` yields
`route_metadata.mode = "brain"`, which is not the requested mode (and is none
of the four documented modes), because the handler hardcodes the literal
`"brain"`. -/
theorem c2_chat_cex :
    Except.map ChatResponse.route_mode
        (chat (pystr "hello there") (some (pystr "council"))
          (some (brainReplySample, chainSample)) constFallback)
      = Except.ok (pystr "brain") ∧
    pystr "brain" ≠ pystr "council" ∧ pystr "brain" ≠ pystr "auto" ∧
    pystr "brain" ≠ pystr "reflex" ∧ pystr "brain" ≠ pystr "strategic" := by
  exact ⟨rfl, by decide, by decide, by decide, by decide⟩

/-- Claim C2 (amended): for every chat request whose message is non-empty
after stripping, the handler returns a response whose `route_metadata.mode` is
always the constant `"brain"` (the requested mode is ignored in the metadata)
and whose `output` is the text produced by the brain (or, when the brain
raises, by the council fallback), hence non-empty exactly when that pipeline
text is non-empty. -/
theorem c2_chat_amended (message : PyStr) (mode : Option PyStr)
    (brainOutcome : Option (PyStr × ChainData)) (councilFallback : PyStr → PyStr)
    (hmsg : pyStrip message ≠ []) :
    ∃ resp : ChatResponse,
      chat message mode brainOutcome councilFallback = Except.ok resp ∧
      resp.route_mode = pystr "brain" ∧
      resp.output = chatResponseText mode brainOutcome councilFallback ∧
      (chatResponseText mode brainOutcome councilFallback ≠ [] →
        resp.output ≠ []) := by
  have hfalse : (pyStrip message).isEmpty = false := by
    cases hps : pyStrip message with
    | nil => exact absurd hps hmsg
    | cons a l => rfl
  unfold chat
  rw [hfalse]
  exact ⟨_, rfl, rfl, rfl, fun h => h⟩

/-- Witness for C2 (amended) at a concrete request. -/
theorem c2_chat_amended_witness :
    ∃ resp : ChatResponse,
      chat (pystr "hi") (some (pystr "reflex"))
          (some (brainReplySample, chainSample)) constFallback
        = Except.ok resp ∧
      resp.route_mode = pystr "brain" ∧
      resp.output = chatResponseText (some (pystr "reflex"))
          (some (brainReplySample, chainSample)) constFallback ∧
      (chatResponseText (some (pystr "reflex"))
          (some (brainReplySample, chainSample)) constFallback ≠ [] →
        resp.output ≠ []) :=
  c2_chat_amended (pystr "hi") (some (pystr "reflex"))
    (some (brainReplySample, chainSample)) constFallback (by decide)

/-! ### Helper lemmas for lesson retrieval and feedback -/

theorem foldl_tag_bonus (qw : List PyStr) (tags : List PyStr) :
    ∀ init : ℚ,
      tags.foldl (fun s tag => if pyLower tag ∈ qw then s + 2 else s) init
        = init + 2 * ((tags.countP (fun t => decide (pyLower t ∈ qw))) : ℚ) := by
  induction tags with
  | nil => intro init; simp
  | cons t ts ih =>
    intro init
    rw [List.foldl_cons, ih]
    by_cases h : pyLower t ∈ qw
    · rw [if_pos h, List.countP_cons, if_pos (decide_eq_true h)]
      push_cast
      ring
    · rw [if_neg h, List.countP_cons, if_neg (by simpa using h)]
      push_cast
      ring

theorem lessonScore_eq_spec (q : PyStr) (l : Lesson) :
    lessonScore q l = lessonScoreSpec q l := by
  simp only [lessonScore, lessonScoreSpec]
  rw [foldl_tag_bonus]

theorem lessonScoreSpec_nonneg (q : PyStr) (l : Lesson)
    (h : 0 ≤ l.effectiveness_score) : 0 ≤ lessonScoreSpec q l := by
  simp only [lessonScoreSpec]
  refine mul_nonneg (add_nonneg (add_nonneg ?_ ?_) ?_) (by linarith)
  · split <;> norm_num
  · positivity
  · simp only [tokenOverlap]
    positivity

/-- Claim C5: lesson retrieval computes exactly the specified scores (topic
substring +3, +2 per matching tag, token overlap, boosted by
0.5 + effectiveness), keeps only positive scores — which under in-range
effectiveness scores coincides with excluding zero scores — sorts stably by
descending score, and returns at most `k` lessons. -/
theorem c5_get_relevant_lessons (lessons : List Lesson) (query : PyStr) (k : Nat)
    (h : ∀ l ∈ lessons, 0 ≤ l.effectiveness_score) :
    get_relevant_lessons lessons query k = relevantLessonsSpec lessons query k ∧
    (get_relevant_lessons lessons query k).length ≤ k := by
  constructor
  · unfold get_relevant_lessons relevantLessonsSpec
    have hmap : (fun l => (lessonScore query l, l))
        = (fun l : Lesson => (lessonScoreSpec query l, l)) :=
      funext fun l => by rw [lessonScore_eq_spec]
    rw [hmap]
    have hfilter :
        ((lessons.map (fun l => (lessonScoreSpec query l, l))).filter
            (fun p => decide (0 < p.1)))
          = ((lessons.map (fun l => (lessonScoreSpec query l, l))).filter
            (fun p => decide (p.1 ≠ 0))) := by
      apply List.filter_congr
      intro p hp
      obtain ⟨l, hl, rfl⟩ := List.mem_map.mp hp
      have hnn := lessonScoreSpec_nonneg query l (h l hl)
      rw [decide_eq_decide]
      exact ⟨fun hpos => ne_of_gt hpos, fun hne => lt_of_le_of_ne hnn (Ne.symm hne)⟩
    rw [hfilter]
  · unfold get_relevant_lessons
    rw [List.length_take]
    exact min_le_left _ _

/-- Witness for C5 at a concrete store and query (the spec's teaching
scenario). -/
theorem c5_get_relevant_lessons_witness :
    get_relevant_lessons [lessonSample] (pystr "what about ci tests") 3
      = relevantLessonsSpec [lessonSample] (pystr "what about ci tests") 3 ∧
    (get_relevant_lessons [lessonSample] (pystr "what about ci tests") 3).length
      ≤ 3 :=
  c5_get_relevant_lessons [lessonSample] (pystr "what about ci tests") 3
    (by intro l hl; rw [List.mem_singleton.mp hl]; norm_num [lessonSample])

theorem markUpdate_bounds (l : Lesson) (wh : Bool) :
    0 ≤ (markUpdate l wh).effectiveness_score ∧
    (markUpdate l wh).effectiveness_score ≤ 1 := by
  constructor
  · exact le_max_left _ _
  · exact max_le (by norm_num) (min_le_left _ _)

theorem mark_mem_bounds (lessons : List Lesson) (lid : PyStr) (wh : Bool)
    (h : ∀ l ∈ lessons, 0 ≤ l.effectiveness_score ∧ l.effectiveness_score ≤ 1) :
    ∀ l ∈ mark_lesson_used lessons lid wh,
      0 ≤ l.effectiveness_score ∧ l.effectiveness_score ≤ 1 := by
  induction lessons with
  | nil =>
    intro l hl
    simp [mark_lesson_used] at hl
  | cons a rest ih =>
    intro l hl
    by_cases ha : a.id = lid
    · rw [mark_lesson_used, if_pos ha] at hl
      rcases List.mem_cons.mp hl with hcase | hcase
      · exact hcase ▸ markUpdate_bounds a wh
      · exact h l (List.mem_cons_of_mem a hcase)
    · rw [mark_lesson_used, if_neg ha] at hl
      rcases List.mem_cons.mp hl with hcase | hcase
      · exact hcase ▸ h a (List.mem_cons_self a rest)
      · exact ih (fun x hx => h x (List.mem_cons_of_mem a hx)) l hcase

theorem applyMarks_mem_bounds (calls : List (PyStr × Bool)) :
    ∀ lessons : List Lesson,
      (∀ l ∈ lessons, 0 ≤ l.effectiveness_score ∧ l.effectiveness_score ≤ 1) →
      ∀ l ∈ applyMarks lessons calls,
        0 ≤ l.effectiveness_score ∧ l.effectiveness_score ≤ 1 := by
  induction calls with
  | nil => intro lessons h; simpa [applyMarks] using h
  | cons c rest ih =>
    intro lessons h
    simp only [applyMarks, List.foldl_cons]
    exact ih _ (mark_mem_bounds lessons c.1 c.2 h)

/-- Claim C6: the lesson effectiveness score stays in [0, 1] across any
sequence of `mark_lesson_used` calls; a matching call updates exactly the
first lesson carrying the id — clamped ±0.1 adjustment, usage counter +1 —
leaving every other lesson untouched; a call with an unknown id is a silent
no-op. -/
theorem c6_mark_lesson_used :
    (∀ (lessons : List Lesson) (calls : List (PyStr × Bool)),
       (∀ l ∈ lessons, 0 ≤ l.effectiveness_score ∧ l.effectiveness_score ≤ 1) →
       ∀ l ∈ applyMarks lessons calls,
         0 ≤ l.effectiveness_score ∧ l.effectiveness_score ≤ 1) ∧
    (∀ (pre : List Lesson) (l : Lesson) (post : List Lesson) (wh : Bool),
       (∀ x ∈ pre, x.id ≠ l.id) →
       mark_lesson_used (pre ++ l :: post) l.id wh
         = pre ++ markUpdate l wh :: post ∧
       (markUpdate l wh).usage_count = l.usage_count + 1 ∧
       (markUpdate l wh).effectiveness_score
         = max 0 (min 1 (l.effectiveness_score +
             (if wh then 1/10 else -(1/10))))) ∧
    (∀ (lessons : List Lesson) (lid : PyStr) (wh : Bool),
       (∀ l ∈ lessons, l.id ≠ lid) →
       mark_lesson_used lessons lid wh = lessons) := by
  refine ⟨fun lessons calls h => applyMarks_mem_bounds calls lessons h, ?_, ?_⟩
  · intro pre l post wh hpre
    refine ⟨?_, rfl, rfl⟩
    induction pre with
    | nil => simp [mark_lesson_used]
    | cons a rest ih =>
      have ha : a.id ≠ l.id := hpre a (List.mem_cons_self a rest)
      simp only [List.cons_append, mark_lesson_used, if_neg ha, List.append_eq]
      rw [ih (fun x hx => hpre x (List.mem_cons_of_mem a hx))]
  · intro lessons lid wh h
    induction lessons with
    | nil => rfl
    | cons a rest ih =>
      rw [mark_lesson_used, if_neg (h a (List.mem_cons_self a rest))]
      rw [ih (fun x hx => h x (List.mem_cons_of_mem a hx))]

/-- Witness for C6 at a concrete store: one clamped update, one no-op. -/
theorem c6_mark_lesson_used_witness :
    (0 ≤ (markUpdate lessonSample false).effectiveness_score ∧
      (markUpdate lessonSample false).effectiveness_score ≤ 1) ∧
    mark_lesson_used [lessonSample] lessonSample.id true
      = [markUpdate lessonSample true] ∧
    mark_lesson_used [lessonSample] (pystr "missing") true = [lessonSample] := by
  refine ⟨?_, ?_, ?_⟩
  · have hmem : markUpdate lessonSample false
        ∈ applyMarks [lessonSample] [(lessonSample.id, false)] := by
      simp [applyMarks, mark_lesson_used]
    refine c6_mark_lesson_used.1 [lessonSample] [(lessonSample.id, false)]
      ?_ _ hmem
    intro l hl
    have := List.mem_singleton.mp hl
    subst this
    norm_num [lessonSample]
  · have h := (c6_mark_lesson_used.2.1 [] lessonSample [] true (by simp)).1
    simpa using h
  · refine c6_mark_lesson_used.2.2 [lessonSample] (pystr "missing") true ?_
    intro l hl
    have := List.mem_singleton.mp hl
    subst this
    decide

/-- Claim C8, counterexample: a 21-word reply to a 30-word query gets the
+0.1 length bump in the code (absolute `> 20` words test, confidence 0.8) even
though it is not "long relative to the query" (the spec-worded score is 0.7) —
the bump does not depend on the query at all. -/
theorem c8_confidence_cex :
    estimate_response_quality longQuery midResponse = 4/5 ∧
    estimateQualitySpec longQuery midResponse = 7/10 ∧
    (4/5 : ℚ) ≠ 7/10 ∧
    (pySplit longQuery).length = 30 ∧ (pySplit midResponse).length = 21 := by
  have he : hasErrorMarker midResponse = false := by decide
  have ha : hasActionablePhrase midResponse = false := by decide
  have hr : (pySplit midResponse).length = 21 := by decide
  have hq : (pySplit longQuery).length = 30 := by decide
  refine ⟨?_, ?_, by norm_num, hq, hr⟩
  · simp only [estimate_response_quality, he, ha, hr]
    norm_num
  · simp only [estimateQualitySpec, he, ha, hr, hq]
    norm_num

/-- Claim C8 (amended): the confidence score is the fixed heuristic with the
length bump being the absolute test "more than 20 words" (not relative to the
query, which is never consulted); it is clamped to [0.1, 1.0]; and the
evolution ledger is fed with `success = (confidence > 0.6)` — the success
counter grows exactly when the threshold is exceeded. -/
theorem c8_confidence_amended (q r : PyStr) (ag : List PyStr)
    (evo : EvolutionState) :
    estimate_response_quality q r
      = max (1/10) (min 1
          (7/10 + (if hasErrorMarker r then -(4/10) else 0)
            + (if (pySplit r).length < 5 then -(2/10)
               else if (pySplit r).length > 20 then 1/10 else 0)
            + (if hasActionablePhrase r then 1/10 else 0))) ∧
    1/10 ≤ estimate_response_quality q r ∧
    estimate_response_quality q r ≤ 1 ∧
    (think_record q r ag evo).total_interactions = evo.total_interactions + 1 ∧
    ((think_record q r ag evo).successful_resolutions
        = evo.successful_resolutions + 1
      ↔ estimate_response_quality q r > 3/5) := by
  refine ⟨?_, ?_, ?_, ?_, ?_⟩
  · simp only [estimate_response_quality]
    split_ifs <;> norm_num
  · simp only [estimate_response_quality]
    exact le_max_left _ _
  · simp only [estimate_response_quality]
    exact max_le (by norm_num) (min_le_left _ _)
  · simp only [think_record, record_interaction]
    split <;> rfl
  · simp only [think_record, record_interaction]
    by_cases hc : estimate_response_quality q r > 3/5
    · simp [hc]
    · simp [hc]

/-! ### Conversation memory round-trip -/

theorem writeTurns_eq (ms turns : List MemEntry) :
    writeTurns ms turns = ms ++ turns := by
  induction turns generalizing ms with
  | nil => simp [writeTurns]
  | cons t ts ih =>
    simp only [writeTurns, List.foldl_cons] at *
    rw [ih (add_message ms t), add_message]
    simp

/-- Claim C9: after writing `N ≥ 1` turns into an empty conversation memory,
`get_context k` for every `1 ≤ k ≤ N` returns exactly the last `k` turns in
their original insertion order, the total record count, and the timestamp of
the last written turn. -/
theorem c9_get_context_roundtrip (ts : List MemEntry) (t : MemEntry) (k : Nat)
    (h1 : 1 ≤ k) (h2 : k ≤ (ts ++ [t]).length) :
    get_context (writeTurns [] (ts ++ [t])) k
      = ((ts ++ [t]).drop ((ts ++ [t]).length - k), (ts ++ [t]).length,
          some t.timestamp) := by
  rw [writeTurns_eq, List.nil_append]
  unfold get_context
  have hlast : (ts ++ [t]).getLast? = some t := by
    rw [List.getLast?_concat]
  have hrecent :
      (if (ts ++ [t]).length > k then pyLastSlice (ts ++ [t]) k else ts ++ [t])
        = (ts ++ [t]).drop ((ts ++ [t]).length - k) := by
    by_cases hlt : (ts ++ [t]).length > k
    · rw [if_pos hlt]
      unfold pyLastSlice
      rw [if_neg (by omega)]
    · rw [if_neg hlt]
      rw [show (ts ++ [t]).length - k = 0 by omega, List.drop_zero]
  rw [hrecent, hlast]
  rfl

/-- Witness for C9 at a concrete one-turn store with `k = 1`. -/
theorem c9_get_context_roundtrip_witness :
    get_context (writeTurns [] ([] ++ [(⟨5, some (pystr "hi"), none⟩ : MemEntry)])) 1
      = (([] ++ [(⟨5, some (pystr "hi"), none⟩ : MemEntry)]).drop
            (([] ++ [(⟨5, some (pystr "hi"), none⟩ : MemEntry)]).length - 1),
          ([] ++ [(⟨5, some (pystr "hi"), none⟩ : MemEntry)]).length,
          some 5) :=
  c9_get_context_roundtrip [] ⟨5, some (pystr "hi"), none⟩ 1 (by norm_num)
    (by simp)
